import Mathlib

/-!
# kubets-driver: the provisioning script `main.go`

A shallow embedding of `createEksClusterRole` and of the body that `main`
hands to `pulumi.Run`.

The script itself performs no I/O: it calls `json.Marshal` once and then
declares resources through the constructors of the Pulumi SDK
(`iam.NewRole`, `ec2.NewVpc`, ...), checking `err != nil` after each call.
Those collaborators are not code of this repository, so they are taken as
parameters (`Env`): any serialiser and any orchestration engine.  The
provisioning session (`*pulumi.Context`) is passed explicitly as the list of
the declarations made so far, each with the engine's answer.
-/

namespace KubetsDriver

/-! ## Data model -/

/-- A Go value of type `error` (non-nil), as returned by a collaborator. -/
structure GoError where
  msg : String
deriving DecidableEq, Repr

/-- The Go values that the script hands to `json.Marshal`:
strings, slices, and `map[string]interface{}` literals (entries kept in the
order of the source literal). -/
inductive Json where
  | str : String → Json
  | arr : List Json → Json
  | obj : List (String × Json) → Json

/-- The handle the engine gives back for a declared resource.  The script
reads `.ID()` of network resources and `.Name` and `.Arn` of the role. -/
structure Resource where
  id : String
  name : String
  arn : String
deriving DecidableEq, Repr

/-- Arguments of `iam.RoleArgs` set by the script. -/
structure RoleArgs where
  Name : String
  AssumeRolePolicy : String
deriving DecidableEq, Repr

/-- Arguments of `iam.RolePolicyAttachmentArgs` set by the script. -/
structure RolePolicyAttachmentArgs where
  PolicyArn : String
  Role : String
deriving DecidableEq, Repr

/-- Arguments of `ec2.VpcArgs` set by the script. -/
structure VpcArgs where
  CidrBlock : String
deriving DecidableEq, Repr

/-- Arguments of `ec2.InternetGatewayArgs` set by the script. -/
structure InternetGatewayArgs where
  VpcId : String
deriving DecidableEq, Repr

/-- One entry of `ec2.RouteTableRouteArray`. -/
structure RouteTableRouteArgs where
  CidrBlock : String
  GatewayId : String
deriving DecidableEq, Repr

/-- Arguments of `ec2.RouteTableArgs` set by the script. -/
structure RouteTableArgs where
  VpcId : String
  Routes : List RouteTableRouteArgs
  Tags : List (String × String)
deriving DecidableEq, Repr

/-- Arguments of `ec2.SubnetArgs` set by the script. -/
structure SubnetArgs where
  VpcId : String
  CidrBlock : String
  AvailabilityZone : String
  Tags : List (String × String)
deriving DecidableEq, Repr

/-- Arguments of `ec2.RouteTableAssociationArgs` set by the script. -/
structure RouteTableAssociationArgs where
  SubnetId : String
  RouteTableId : String
deriving DecidableEq, Repr

/-- The `VpcConfig` block of `eks.ClusterArgs`. -/
structure ClusterVpcConfigArgs where
  SubnetIds : List String
deriving DecidableEq, Repr

/-- Arguments of `eks.ClusterArgs` set by the script. -/
structure ClusterArgs where
  Name : String
  RoleArn : String
  VpcConfig : ClusterVpcConfigArgs
deriving DecidableEq, Repr

/-- The kinds of resource the script declares. -/
inductive Kind where
  | role
  | rolePolicyAttachment
  | vpc
  | internetGateway
  | routeTable
  | subnet
  | routeTableAssociation
  | cluster
  | bucket
deriving DecidableEq, Repr

/-- A declaration handed to the engine: the resource kind (one constructor
per SDK constructor called by the script), the logical resource name (the
second argument of the SDK constructor) and the arguments. -/
inductive Intent where
  | role (name : String) (args : RoleArgs)
  | rolePolicyAttachment (name : String) (args : RolePolicyAttachmentArgs)
  | vpc (name : String) (args : VpcArgs)
  | internetGateway (name : String) (args : InternetGatewayArgs)
  | routeTable (name : String) (args : RouteTableArgs)
  | subnet (name : String) (args : SubnetArgs)
  | routeTableAssociation (name : String) (args : RouteTableAssociationArgs)
  | cluster (name : String) (args : ClusterArgs)
  | bucket (name : String)
deriving DecidableEq, Repr

/-- The resource kind of a declaration. -/
def Intent.kind : Intent → Kind
  | .role _ _ => .role
  | .rolePolicyAttachment _ _ => .rolePolicyAttachment
  | .vpc _ _ => .vpc
  | .internetGateway _ _ => .internetGateway
  | .routeTable _ _ => .routeTable
  | .subnet _ _ => .subnet
  | .routeTableAssociation _ _ => .routeTableAssociation
  | .cluster _ _ => .cluster
  | .bucket _ => .bucket

/-- The logical resource name of a declaration. -/
def Intent.logicalName : Intent → String
  | .role n _ => n
  | .rolePolicyAttachment n _ => n
  | .vpc n _ => n
  | .internetGateway n _ => n
  | .routeTable n _ => n
  | .subnet n _ => n
  | .routeTableAssociation n _ => n
  | .cluster n _ => n
  | .bucket n => n

/-- One declaration made in a session, with the engine's answer. -/
structure Event where
  intent : Intent
  result : Except GoError Resource

/-- Whether the engine accepted the declaration. -/
def Event.succeeded (ev : Event) : Bool :=
  match ev.result with
  | .ok _ => true
  | .error _ => false

/-- Whether the event is a policy-attachment declaration. -/
def Event.isAttachment (ev : Event) : Bool :=
  decide (ev.intent.kind = Kind.rolePolicyAttachment)

/-- Whether the event is a role declaration. -/
def Event.isRole (ev : Event) : Bool :=
  decide (ev.intent.kind = Kind.role)

/-- The kind and logical name of the declaration of an event. -/
def Event.key (ev : Event) : Kind × String :=
  (ev.intent.kind, ev.intent.logicalName)

/-- The provisioning session behind `ctx`: every declaration made so far,
oldest first. -/
abbrev Session := List Event

/-- The collaborators of the script: `json.Marshal`, and the engine that
answers each declaration, given the session so far. -/
structure Env where
  marshal : Json → Except GoError String
  register : Session → Intent → Except GoError Resource

/-- A computation over the session that either yields a value or a Go error;
the session is kept in both cases. -/
def Prog (α : Type) : Type := Session → Except GoError α × Session

/-- Sequencing with the `if err != nil { return ..., err }` check of the
source: the rest runs only when the first part yielded a value. -/
def Prog.bind {α β : Type} (m : Prog α) (f : α → Prog β) : Prog β :=
  fun s =>
    match m s with
    | (.error e, s1) => (.error e, s1)
    | (.ok a, s1) => f a s1

/-- A computation that returns a value and declares nothing. -/
def Prog.pure {α : Type} (a : α) : Prog α :=
  fun s => (.ok a, s)

instance : Monad Prog where
  pure := Prog.pure
  bind := Prog.bind

/-- The call `json.Marshal(v)`: local, it touches no session. -/
def json.Marshal (env : Env) (v : Json) : Prog String :=
  fun s => (env.marshal v, s)

/-- Hands one declaration to the engine and records it in the session. -/
def registerResource (env : Env) (i : Intent) : Prog Resource :=
  fun s => (env.register s i, s ++ [⟨i, env.register s i⟩])

/-- The SDK constructor `iam.NewRole(ctx, name, args)`. -/
def iam.NewRole (env : Env) (name : String) (args : RoleArgs) : Prog Resource :=
  registerResource env (.role name args)

/-- The SDK constructor `iam.NewRolePolicyAttachment(ctx, name, args)`. -/
def iam.NewRolePolicyAttachment (env : Env) (name : String)
    (args : RolePolicyAttachmentArgs) : Prog Resource :=
  registerResource env (.rolePolicyAttachment name args)

/-- The SDK constructor `ec2.NewVpc(ctx, name, args)`. -/
def ec2.NewVpc (env : Env) (name : String) (args : VpcArgs) : Prog Resource :=
  registerResource env (.vpc name args)

/-- The SDK constructor `ec2.NewInternetGateway(ctx, name, args)`. -/
def ec2.NewInternetGateway (env : Env) (name : String)
    (args : InternetGatewayArgs) : Prog Resource :=
  registerResource env (.internetGateway name args)

/-- The SDK constructor `ec2.NewRouteTable(ctx, name, args)`. -/
def ec2.NewRouteTable (env : Env) (name : String) (args : RouteTableArgs) :
    Prog Resource :=
  registerResource env (.routeTable name args)

/-- The SDK constructor `ec2.NewSubnet(ctx, name, args)`. -/
def ec2.NewSubnet (env : Env) (name : String) (args : SubnetArgs) : Prog Resource :=
  registerResource env (.subnet name args)

/-- The SDK constructor `ec2.NewRouteTableAssociation(ctx, name, args)`. -/
def ec2.NewRouteTableAssociation (env : Env) (name : String)
    (args : RouteTableAssociationArgs) : Prog Resource :=
  registerResource env (.routeTableAssociation name args)

/-- The SDK constructor `eks.NewCluster(ctx, name, args)`. -/
def eks.NewCluster (env : Env) (name : String) (args : ClusterArgs) : Prog Resource :=
  registerResource env (.cluster name args)

/-- The SDK constructor `s3.NewBucket(ctx, name, nil)`. -/
def s3.NewBucket (env : Env) (name : String) : Prog Resource :=
  registerResource env (.bucket name)

/-! ## The script -/

/-- The function `createEksClusterRole(ctx, roleName)` of `main.go`. -/
def createEksClusterRole (env : Env) (roleName : String) : Prog Resource := do
  let assumeRolePolicy ← json.Marshal env (Json.obj [
    ("Version", Json.str "2012-10-17"),
    ("Statement", Json.arr [
      Json.obj [
        ("Effect", Json.str "Allow"),
        ("Principal", Json.obj [
          ("Service", Json.str "eks.amazonaws.com")
        ]),
        ("Action", Json.str "sts:AssumeRole")
      ]
    ])
  ])
  let role ← iam.NewRole env roleName {
    Name := roleName,
    AssumeRolePolicy := assumeRolePolicy
  }
  let _ ← iam.NewRolePolicyAttachment env "eks-cluster-policy" {
    PolicyArn := "arn:aws:iam::aws:policy/AmazonEKSClusterPolicy",
    Role := role.name
  }
  let _ ← iam.NewRolePolicyAttachment env "eks-service-policy" {
    PolicyArn := "arn:aws:iam::aws:policy/AmazonEKSServicePolicy",
    Role := role.name
  }
  return role

/-- The function that `main` passes to `pulumi.Run`. -/
def main (env : Env) : Prog Unit := do
  let eksClusterRole ← createEksClusterRole env "eks-cluster-role"
  let vpc ← ec2.NewVpc env "main" {
    CidrBlock := "10.0.0.0/16"
  }
  let ig ← ec2.NewInternetGateway env "main-ig" {
    VpcId := vpc.id
  }
  let rt ← ec2.NewRouteTable env "main-rt" {
    VpcId := vpc.id,
    Routes := [
      { CidrBlock := "0.0.0.0/0", GatewayId := ig.id }
    ],
    Tags := [("Name", "main-rt")]
  }
  let subnetPublicA ← ec2.NewSubnet env "main-public-a" {
    VpcId := vpc.id,
    CidrBlock := "10.0.1.0/24",
    AvailabilityZone := "ap-northeast-1a",
    Tags := [("Name", "Main-Public-A")]
  }
  let _ ← ec2.NewRouteTableAssociation env "eks-rta-1" {
    SubnetId := subnetPublicA.id,
    RouteTableId := rt.id
  }
  let subnetPublicD ← ec2.NewSubnet env "main-public-d" {
    VpcId := vpc.id,
    CidrBlock := "10.0.2.0/24",
    AvailabilityZone := "ap-northeast-1d",
    Tags := [("Name", "Main-Public-D")]
  }
  let _ ← ec2.NewRouteTableAssociation env "eks-rta-2" {
    SubnetId := subnetPublicD.id,
    RouteTableId := rt.id
  }
  let subnetPrivateA ← ec2.NewSubnet env "main-private-A" {
    VpcId := vpc.id,
    CidrBlock := "10.0.100.0/24",
    AvailabilityZone := "ap-northeast-1a",
    Tags := [("Name", "Main-Private")]
  }
  let _ ← ec2.NewRouteTableAssociation env "eks-rta-3" {
    SubnetId := subnetPrivateA.id,
    RouteTableId := rt.id
  }
  let eksClusterName := "kubets-cluster"
  let _ ← eks.NewCluster env eksClusterName {
    Name := eksClusterName,
    RoleArn := eksClusterRole.arn,
    VpcConfig := {
      SubnetIds := [
        subnetPublicA.id,
        subnetPublicD.id,
        subnetPrivateA.id
      ]
    }
  }
  let _ ← s3.NewBucket env "my-bucket"
  return ()

/-- The declarations a computation adds to the session it starts from. -/
def issued {α : Type} (p : Prog α) (s : Session) : List Event :=
  (p s).2.drop s.length

/-! ## The documents and declarations the specification talks about -/

/-- A policy statement as the specification describes it: an effect, a
principal that is the mapping from `Service` to a service identifier, and an
action. -/
def policyStatement (effect servicePrincipal action : String) : Json :=
  Json.obj [
    ("Effect", Json.str effect),
    ("Principal", Json.obj [("Service", Json.str servicePrincipal)]),
    ("Action", Json.str action)]

/-- A policy document as the specification describes it: a version and a
sequence of statements. -/
def policyDocument (version : String) (statements : List Json) : Json :=
  Json.obj [("Version", Json.str version), ("Statement", Json.arr statements)]

/-- The trust document of the specification for a service principal: version
`2012-10-17` and the single statement that allows the principal to assume
the role. -/
def trustPolicyDocument (servicePrincipal : String) : Json :=
  policyDocument "2012-10-17" [policyStatement "Allow" servicePrincipal "sts:AssumeRole"]

/-- The trust document for the EKS control plane. -/
def eksTrustPolicy : Json :=
  trustPolicyDocument "eks.amazonaws.com"

/-- The role declaration for a role name and a serialised trust policy. -/
def roleIntent (roleName policy : String) : Intent :=
  .role roleName { Name := roleName, AssumeRolePolicy := policy }

/-- The declaration that attaches `AmazonEKSClusterPolicy` to a role. -/
def clusterPolicyIntent (role : String) : Intent :=
  .rolePolicyAttachment "eks-cluster-policy"
    { PolicyArn := "arn:aws:iam::aws:policy/AmazonEKSClusterPolicy", Role := role }

/-- The declaration that attaches `AmazonEKSServicePolicy` to a role. -/
def servicePolicyIntent (role : String) : Intent :=
  .rolePolicyAttachment "eks-service-policy"
    { PolicyArn := "arn:aws:iam::aws:policy/AmazonEKSServicePolicy", Role := role }

/-! ## Sample collaborators -/

/-- The handle a sample engine returns for a declaration. -/
def sampleResource (i : Intent) : Resource :=
  { id := "id:" ++ i.logicalName,
    name := "name:" ++ i.logicalName,
    arn := "arn:" ++ i.logicalName }

/-- A serialiser that answers `policy`, with an engine that accepts every
declaration. -/
def acceptAll : Env :=
  { marshal := fun _ => .ok "policy",
    register := fun _ i => .ok (sampleResource i) }

/-- A serialiser that answers `policy`, with an engine that refuses, with the
given error, the declaration made when the session holds `n` declarations, and
accepts every other one. -/
def refuseAt (n : Nat) (e : GoError) : Env :=
  { marshal := fun _ => .ok "policy",
    register := fun s i => if s.length = n then .error e else .ok (sampleResource i) }

/-- A serialiser that fails with the given error, with an engine that accepts
every declaration. -/
def marshalFails (e : GoError) : Env :=
  { marshal := fun _ => .error e,
    register := fun _ i => .ok (sampleResource i) }

/-- An engine that refuses, as a duplicate, every declaration whose kind and
logical name are those of a declaration it accepted earlier in the session,
and accepts every other one; the serialiser answers `policy`. -/
def dedupEngine : Env :=
  { marshal := fun _ => .ok "policy",
    register := fun s i =>
      if s.any (fun ev => ev.succeeded && decide (ev.key = (i.kind, i.logicalName))) then
        .error ⟨"duplicate resource"⟩
      else
        .ok (sampleResource i) }

/-- The value of a field of a `map[string]interface{}` value. -/
def Json.field? (j : Json) (k : String) : Option Json :=
  match j with
  | .obj kvs => kvs.lookup k
  | _ => none

/-- The service identifiers named as principal by the statements of a policy
document. -/
def servicePrincipals (doc : Json) : List String :=
  match doc.field? "Statement" with
  | some (.arr stmts) =>
    stmts.filterMap (fun st =>
      match st.field? "Principal" with
      | some pr =>
        match pr.field? "Service" with
        | some (.str sp) => some sp
        | _ => none
      | none => none)
  | _ => []

/-- A serialiser that answers the service principal of a document with a
single statement and fails on any other value, with an engine that accepts
every declaration. -/
def principalProbe : Env :=
  { marshal := fun j =>
      match servicePrincipals j with
      | [sp] => .ok sp
      | _ => .error ⟨"unsupported value"⟩,
    register := fun _ i => .ok (sampleResource i) }

/-! ## Notions the claims use -/

/-- The managed policy that an attachment declaration attaches. -/
def Intent.policyArn? : Intent → Option String
  | .rolePolicyAttachment _ args => some args.PolicyArn
  | _ => none

/-- The sequential steps of `createEksClusterRole` that can fail; attachments
are counted from 1. -/
inductive Step where
  | serialisation
  | roleCreation
  | attachment (index : Nat)
deriving DecidableEq, Repr

/-- The step at which a call of `createEksClusterRole` failed, read off its
run: serialisation when the call failed without declaring anything, role
creation when the last declaration made is the role, and otherwise the
attachment last declared. -/
def failedStep (env : Env) (roleName : String) (s : Session) : Option Step :=
  match (createEksClusterRole env roleName s).1 with
  | .ok _ => none
  | .error _ =>
    match (issued (createEksClusterRole env roleName) s).getLast? with
    | none => some .serialisation
    | some ev =>
      if ev.isRole then some .roleCreation
      else some (.attachment
        ((issued (createEksClusterRole env roleName) s).filter Event.isAttachment).length)

/-- An engine that rejects a logical name already declared in the session:
it refuses every declaration whose kind and logical name are those of a
declaration accepted earlier in the session. -/
def RejectsDuplicates (env : Env) : Prop :=
  ∀ (s : Session) (i : Intent),
    (∃ ev ∈ s, ev.succeeded = true ∧ ev.key = (i.kind, i.logicalName)) →
    ∃ e, env.register s i = .error e

/-- The declarations of `main` in source order, by kind and logical name.
The first three are made by `createEksClusterRole "eks-cluster-role"`. -/
def mainOrder : List (Kind × String) :=
  [(.role, "eks-cluster-role"),
   (.rolePolicyAttachment, "eks-cluster-policy"),
   (.rolePolicyAttachment, "eks-service-policy"),
   (.vpc, "main"),
   (.internetGateway, "main-ig"),
   (.routeTable, "main-rt"),
   (.subnet, "main-public-a"),
   (.routeTableAssociation, "eks-rta-1"),
   (.subnet, "main-public-d"),
   (.routeTableAssociation, "eks-rta-2"),
   (.subnet, "main-private-A"),
   (.routeTableAssociation, "eks-rta-3"),
   (.cluster, "kubets-cluster"),
   (.bucket, "my-bucket")]

/-! ## Running `createEksClusterRole` -/

theorem issued_append {α : Type} (p : Prog α) (s l : Session)
    (h : (p s).2 = s ++ l) : issued p s = l := by
  unfold issued
  rw [h]
  exact List.drop_left s l

/-- The five ways a call of `createEksClusterRole` can go: serialisation
fails; the role is refused; the first attachment is refused; the second
attachment is refused; everything is accepted. -/
theorem createEksClusterRole_cases (env : Env) (roleName : String) (s : Session) :
    (∃ e, env.marshal eksTrustPolicy = .error e ∧
        createEksClusterRole env roleName s = (.error e, s)) ∨
    (∃ p e, env.marshal eksTrustPolicy = .ok p ∧
        env.register s (roleIntent roleName p) = .error e ∧
        createEksClusterRole env roleName s =
          (.error e, s ++ [⟨roleIntent roleName p, .error e⟩])) ∨
    (∃ p role e, env.marshal eksTrustPolicy = .ok p ∧
        env.register s (roleIntent roleName p) = .ok role ∧
        env.register (s ++ [⟨roleIntent roleName p, .ok role⟩])
          (clusterPolicyIntent role.name) = .error e ∧
        createEksClusterRole env roleName s =
          (.error e, s ++ [⟨roleIntent roleName p, .ok role⟩,
            ⟨clusterPolicyIntent role.name, .error e⟩])) ∨
    (∃ p role a1 e, env.marshal eksTrustPolicy = .ok p ∧
        env.register s (roleIntent roleName p) = .ok role ∧
        env.register (s ++ [⟨roleIntent roleName p, .ok role⟩])
          (clusterPolicyIntent role.name) = .ok a1 ∧
        env.register (s ++ [⟨roleIntent roleName p, .ok role⟩,
          ⟨clusterPolicyIntent role.name, .ok a1⟩])
          (servicePolicyIntent role.name) = .error e ∧
        createEksClusterRole env roleName s =
          (.error e, s ++ [⟨roleIntent roleName p, .ok role⟩,
            ⟨clusterPolicyIntent role.name, .ok a1⟩,
            ⟨servicePolicyIntent role.name, .error e⟩])) ∨
    (∃ p role a1 a2, env.marshal eksTrustPolicy = .ok p ∧
        env.register s (roleIntent roleName p) = .ok role ∧
        env.register (s ++ [⟨roleIntent roleName p, .ok role⟩])
          (clusterPolicyIntent role.name) = .ok a1 ∧
        env.register (s ++ [⟨roleIntent roleName p, .ok role⟩,
          ⟨clusterPolicyIntent role.name, .ok a1⟩])
          (servicePolicyIntent role.name) = .ok a2 ∧
        createEksClusterRole env roleName s =
          (.ok role, s ++ [⟨roleIntent roleName p, .ok role⟩,
            ⟨clusterPolicyIntent role.name, .ok a1⟩,
            ⟨servicePolicyIntent role.name, .ok a2⟩])) := by
  simp only [createEksClusterRole, bind, Prog.bind, pure, Prog.pure, json.Marshal,
    iam.NewRole, iam.NewRolePolicyAttachment, registerResource, eksTrustPolicy,
    trustPolicyDocument, policyDocument, policyStatement, roleIntent,
    clusterPolicyIntent, servicePolicyIntent]
  cases hm : env.marshal (Json.obj [
      ("Version", Json.str "2012-10-17"),
      ("Statement", Json.arr [
        Json.obj [
          ("Effect", Json.str "Allow"),
          ("Principal", Json.obj [("Service", Json.str "eks.amazonaws.com")]),
          ("Action", Json.str "sts:AssumeRole")]])]) with
  | error e => simp
  | ok p =>
    cases hr : env.register s (Intent.role roleName ⟨roleName, p⟩) with
    | error e => simp [hr]
    | ok role =>
      cases h1 : env.register (s ++ [⟨Intent.role roleName ⟨roleName, p⟩, .ok role⟩])
          (Intent.rolePolicyAttachment "eks-cluster-policy"
            ⟨"arn:aws:iam::aws:policy/AmazonEKSClusterPolicy", role.name⟩) with
      | error e => simp [hr, h1]
      | ok a1 =>
        cases h2 : env.register (s ++ [⟨Intent.role roleName ⟨roleName, p⟩, .ok role⟩,
            ⟨Intent.rolePolicyAttachment "eks-cluster-policy"
              ⟨"arn:aws:iam::aws:policy/AmazonEKSClusterPolicy", role.name⟩, .ok a1⟩])
            (Intent.rolePolicyAttachment "eks-service-policy"
              ⟨"arn:aws:iam::aws:policy/AmazonEKSServicePolicy", role.name⟩) with
        | error e => simp [hr, h1, h2]
        | ok a2 => simp [hr, h1, h2]

/-- The declarations of a call of `createEksClusterRole`, in each of its five
outcomes. -/
theorem createEksClusterRole_issued (env : Env) (roleName : String) (s : Session) :
    (∃ e, env.marshal eksTrustPolicy = .error e ∧
        (createEksClusterRole env roleName s).1 = .error e ∧
        issued (createEksClusterRole env roleName) s = []) ∨
    (∃ p e, env.marshal eksTrustPolicy = .ok p ∧
        (createEksClusterRole env roleName s).1 = .error e ∧
        issued (createEksClusterRole env roleName) s =
          [⟨roleIntent roleName p, .error e⟩]) ∨
    (∃ p role e, env.marshal eksTrustPolicy = .ok p ∧
        (createEksClusterRole env roleName s).1 = .error e ∧
        issued (createEksClusterRole env roleName) s =
          [⟨roleIntent roleName p, .ok role⟩,
            ⟨clusterPolicyIntent role.name, .error e⟩]) ∨
    (∃ p role a1 e, env.marshal eksTrustPolicy = .ok p ∧
        (createEksClusterRole env roleName s).1 = .error e ∧
        issued (createEksClusterRole env roleName) s =
          [⟨roleIntent roleName p, .ok role⟩,
            ⟨clusterPolicyIntent role.name, .ok a1⟩,
            ⟨servicePolicyIntent role.name, .error e⟩]) ∨
    (∃ p role a1 a2, env.marshal eksTrustPolicy = .ok p ∧
        (createEksClusterRole env roleName s).1 = .ok role ∧
        issued (createEksClusterRole env roleName) s =
          [⟨roleIntent roleName p, .ok role⟩,
            ⟨clusterPolicyIntent role.name, .ok a1⟩,
            ⟨servicePolicyIntent role.name, .ok a2⟩]) := by
  rcases createEksClusterRole_cases env roleName s with
    ⟨e, hm, h⟩ | ⟨p, e, hm, _, h⟩ | ⟨p, role, e, hm, _, _, h⟩ |
    ⟨p, role, a1, e, hm, _, _, _, h⟩ | ⟨p, role, a1, a2, hm, _, _, _, h⟩
  · refine Or.inl ⟨e, hm, by rw [h], ?_⟩
    exact issued_append _ s [] (by rw [h]; simp)
  · refine Or.inr (Or.inl ⟨p, e, hm, by rw [h], ?_⟩)
    exact issued_append _ s _ (by rw [h])
  · refine Or.inr (Or.inr (Or.inl ⟨p, role, e, hm, by rw [h], ?_⟩))
    exact issued_append _ s _ (by rw [h])
  · refine Or.inr (Or.inr (Or.inr (Or.inl ⟨p, role, a1, e, hm, by rw [h], ?_⟩)))
    exact issued_append _ s _ (by rw [h])
  · refine Or.inr (Or.inr (Or.inr (Or.inr ⟨p, role, a1, a2, hm, by rw [h], ?_⟩)))
    exact issued_append _ s _ (by rw [h])

/-! ## Claims about `createEksClusterRole` -/

/-- C1: for every role name, the value that `createEksClusterRole` serialises
is the document with Version `2012-10-17` and exactly one statement, with
Effect `Allow`, Principal the mapping from `Service` to `eks.amazonaws.com`
and Action `sts:AssumeRole`: whatever the serialiser and the engine are, a
successful serialisation of that document is what the role declaration
carries as `AssumeRolePolicy`, and no role declaration carries anything else.
The document is the same closed value for every role name. -/
theorem createEksClusterRole_trust_policy (env : Env) (roleName : String) (s : Session) :
    (∀ p, env.marshal (policyDocument "2012-10-17"
          [policyStatement "Allow" "eks.amazonaws.com" "sts:AssumeRole"]) = .ok p →
        ((issued (createEksClusterRole env roleName) s).head?).map Event.intent =
          some (Intent.role roleName { Name := roleName, AssumeRolePolicy := p })) ∧
    (∀ ev ∈ issued (createEksClusterRole env roleName) s, ∀ n args,
        ev.intent = Intent.role n args →
        env.marshal (policyDocument "2012-10-17"
          [policyStatement "Allow" "eks.amazonaws.com" "sts:AssumeRole"]) =
            .ok args.AssumeRolePolicy) := by
  have hdoc : policyDocument "2012-10-17"
      [policyStatement "Allow" "eks.amazonaws.com" "sts:AssumeRole"] = eksTrustPolicy := rfl
  rw [hdoc]
  rcases createEksClusterRole_issued env roleName s with
    ⟨e, hm, _, h⟩ | ⟨p, e, hm, _, h⟩ | ⟨p, role, e, hm, _, h⟩ |
    ⟨p, role, a1, e, hm, _, h⟩ | ⟨p, role, a1, a2, hm, _, h⟩ <;>
  · rw [h, hm]
    simp [roleIntent, clusterPolicyIntent, servicePolicyIntent]

/-- C2: for every role name, when serialisation succeeds and every declaration
made is accepted, `createEksClusterRole` makes exactly two policy-attachment
declarations, `AmazonEKSClusterPolicy` first and `AmazonEKSServicePolicy`
second, both after the role declaration and both with `Role` set to the name
of the handle that the role declaration returned. -/
theorem createEksClusterRole_attachments (env : Env) (roleName : String) (s : Session)
    (p : String) (hm : env.marshal eksTrustPolicy = .ok p)
    (hall : (issued (createEksClusterRole env roleName) s).all Event.succeeded = true) :
    ∃ role a1 a2,
      issued (createEksClusterRole env roleName) s =
        [⟨Intent.role roleName { Name := roleName, AssumeRolePolicy := p }, .ok role⟩,
         ⟨Intent.rolePolicyAttachment "eks-cluster-policy"
            { PolicyArn := "arn:aws:iam::aws:policy/AmazonEKSClusterPolicy",
              Role := role.name }, .ok a1⟩,
         ⟨Intent.rolePolicyAttachment "eks-service-policy"
            { PolicyArn := "arn:aws:iam::aws:policy/AmazonEKSServicePolicy",
              Role := role.name }, .ok a2⟩] ∧
      ((issued (createEksClusterRole env roleName) s).filter Event.isAttachment).map
          Event.intent =
        [Intent.rolePolicyAttachment "eks-cluster-policy"
            { PolicyArn := "arn:aws:iam::aws:policy/AmazonEKSClusterPolicy",
              Role := role.name },
         Intent.rolePolicyAttachment "eks-service-policy"
            { PolicyArn := "arn:aws:iam::aws:policy/AmazonEKSServicePolicy",
              Role := role.name }] := by
  rcases createEksClusterRole_issued env roleName s with
    ⟨e, hm1, _, h⟩ | ⟨q, e, hm1, _, h⟩ | ⟨q, role, e, hm1, _, h⟩ |
    ⟨q, role, a1, e, hm1, _, h⟩ | ⟨q, role, a1, a2, hm1, _, h⟩
  · rw [hm] at hm1; cases hm1
  · rw [h] at hall; simp [Event.succeeded] at hall
  · rw [h] at hall; simp [Event.succeeded] at hall
  · rw [h] at hall; simp [Event.succeeded] at hall
  · rw [hm] at hm1
    cases hm1
    refine ⟨role, a1, a2, ?_, ?_⟩
    · rw [h]; rfl
    · rw [h]; rfl

theorem createEksClusterRole_attachments_witness :
    acceptAll.marshal eksTrustPolicy = .ok "policy" ∧
    ∃ role a1 a2,
      issued (createEksClusterRole acceptAll "eks-cluster-role") [] =
        [⟨Intent.role "eks-cluster-role"
            { Name := "eks-cluster-role", AssumeRolePolicy := "policy" }, .ok role⟩,
         ⟨Intent.rolePolicyAttachment "eks-cluster-policy"
            { PolicyArn := "arn:aws:iam::aws:policy/AmazonEKSClusterPolicy",
              Role := role.name }, .ok a1⟩,
         ⟨Intent.rolePolicyAttachment "eks-service-policy"
            { PolicyArn := "arn:aws:iam::aws:policy/AmazonEKSServicePolicy",
              Role := role.name }, .ok a2⟩] ∧
      ((issued (createEksClusterRole acceptAll "eks-cluster-role") []).filter
          Event.isAttachment).map Event.intent =
        [Intent.rolePolicyAttachment "eks-cluster-policy"
            { PolicyArn := "arn:aws:iam::aws:policy/AmazonEKSClusterPolicy",
              Role := role.name },
         Intent.rolePolicyAttachment "eks-service-policy"
            { PolicyArn := "arn:aws:iam::aws:policy/AmazonEKSServicePolicy",
              Role := role.name }] :=
  ⟨rfl, createEksClusterRole_attachments acceptAll "eks-cluster-role" [] "policy" rfl rfl⟩

/-- C3: for every role name, if the role declaration of `createEksClusterRole`
is refused, no policy-attachment declaration is made, and the call returns no
role, with exactly the error that the role declaration returned. -/
theorem createEksClusterRole_role_refused (env : Env) (roleName : String) (s : Session)
    (ev : Event) (e : GoError)
    (hev : ev ∈ issued (createEksClusterRole env roleName) s)
    (hrole : ev.isRole = true) (hfail : ev.result = .error e) :
    (issued (createEksClusterRole env roleName) s).filter Event.isAttachment = [] ∧
    (createEksClusterRole env roleName s).1 = .error e ∧
    issued (createEksClusterRole env roleName) s = [ev] := by
  rcases createEksClusterRole_issued env roleName s with
    ⟨e1, _, hres, h⟩ | ⟨q, e1, _, hres, h⟩ | ⟨q, role, e1, _, hres, h⟩ |
    ⟨q, role, a1, e1, _, hres, h⟩ | ⟨q, role, a1, a2, _, hres, h⟩
  · rw [h] at hev; simp at hev
  · rw [h] at hev ⊢
    simp only [List.mem_singleton] at hev
    subst hev
    simp only [Except.error.injEq] at hfail
    subst hfail
    exact ⟨rfl, hres, rfl⟩
  · rw [h] at hev
    simp only [List.mem_cons, List.mem_singleton, List.not_mem_nil, or_false] at hev
    rcases hev with rfl | rfl
    · cases hfail
    · cases hrole
  · rw [h] at hev
    simp only [List.mem_cons, List.mem_singleton, List.not_mem_nil, or_false] at hev
    rcases hev with rfl | rfl | rfl
    · cases hfail
    · cases hrole
    · cases hrole
  · rw [h] at hev
    simp only [List.mem_cons, List.mem_singleton, List.not_mem_nil, or_false] at hev
    rcases hev with rfl | rfl | rfl
    · cases hfail
    · cases hrole
    · cases hrole

theorem createEksClusterRole_role_refused_witness :
    (issued (createEksClusterRole (refuseAt 0 ⟨"denied"⟩) "eks-cluster-role") []).filter
        Event.isAttachment = [] ∧
    (createEksClusterRole (refuseAt 0 ⟨"denied"⟩) "eks-cluster-role" []).1 =
      .error ⟨"denied"⟩ ∧
    issued (createEksClusterRole (refuseAt 0 ⟨"denied"⟩) "eks-cluster-role") [] =
      [⟨Intent.role "eks-cluster-role"
          { Name := "eks-cluster-role", AssumeRolePolicy := "policy" },
        .error ⟨"denied"⟩⟩] :=
  createEksClusterRole_role_refused (refuseAt 0 ⟨"denied"⟩) "eks-cluster-role" []
    ⟨Intent.role "eks-cluster-role"
        { Name := "eks-cluster-role", AssumeRolePolicy := "policy" },
      .error ⟨"denied"⟩⟩
    ⟨"denied"⟩ (List.mem_singleton.mpr rfl) rfl rfl

/-- C4: for every role name and every `k` in 1..2, if the `k`-th
policy-attachment declaration of `createEksClusterRole` is refused, exactly
`k` attachment declarations are made, the first `k` of cluster policy then
service policy (so attachments `k+1..2` are never declared, and a refused
cluster-policy attachment means no service-policy attachment), and the call
returns no role, with the error of the refused attachment, although the role
declaration had been accepted. -/
theorem createEksClusterRole_attachment_refused (env : Env) (roleName : String)
    (s : Session) (k : Nat) (hk1 : 1 ≤ k) (hk2 : k ≤ 2) (ev : Event) (e : GoError)
    (hev : ((issued (createEksClusterRole env roleName) s).filter
      Event.isAttachment)[k - 1]? = some ev)
    (hfail : ev.result = .error e) :
    (createEksClusterRole env roleName s).1 = .error e ∧
    ((issued (createEksClusterRole env roleName) s).filter Event.isAttachment).length = k ∧
    ∃ p role,
      (issued (createEksClusterRole env roleName) s).head? =
        some ⟨Intent.role roleName { Name := roleName, AssumeRolePolicy := p }, .ok role⟩ ∧
      ((issued (createEksClusterRole env roleName) s).filter Event.isAttachment).map
          Event.intent =
        [Intent.rolePolicyAttachment "eks-cluster-policy"
            { PolicyArn := "arn:aws:iam::aws:policy/AmazonEKSClusterPolicy",
              Role := role.name },
         Intent.rolePolicyAttachment "eks-service-policy"
            { PolicyArn := "arn:aws:iam::aws:policy/AmazonEKSServicePolicy",
              Role := role.name }].take k := by
  have hk : k = 1 ∨ k = 2 := by omega
  rcases createEksClusterRole_issued env roleName s with
    ⟨e1, _, hres, h⟩ | ⟨q, e1, _, hres, h⟩ | ⟨q, role, e1, _, hres, h⟩ |
    ⟨q, role, a1, e1, _, hres, h⟩ | ⟨q, role, a1, a2, _, hres, h⟩
  · rw [h] at hev; simp at hev
  · have hf : (issued (createEksClusterRole env roleName) s).filter Event.isAttachment =
        [] := by rw [h]; rfl
    rw [hf] at hev; simp at hev
  · have hf : (issued (createEksClusterRole env roleName) s).filter Event.isAttachment =
        [⟨clusterPolicyIntent role.name, .error e1⟩] := by rw [h]; rfl
    rw [hf] at hev
    rw [hf, h]
    rcases hk with rfl | rfl
    · simp only [Nat.sub_self, List.getElem?_cons_zero, Option.some.injEq] at hev
      subst hev
      simp only [Except.error.injEq] at hfail
      subst hfail
      exact ⟨hres, rfl, q, role, rfl, rfl⟩
    · simp at hev
  · have hf : (issued (createEksClusterRole env roleName) s).filter Event.isAttachment =
        [⟨clusterPolicyIntent role.name, .ok a1⟩,
          ⟨servicePolicyIntent role.name, .error e1⟩] := by rw [h]; rfl
    rw [hf] at hev
    rw [hf, h]
    rcases hk with rfl | rfl
    · simp only [Nat.sub_self, List.getElem?_cons_zero, Option.some.injEq] at hev
      subst hev
      cases hfail
    · simp only [Nat.add_one_sub_one, List.getElem?_cons_succ, List.getElem?_cons_zero,
        Option.some.injEq] at hev
      subst hev
      simp only [Except.error.injEq] at hfail
      subst hfail
      exact ⟨hres, rfl, q, role, rfl, rfl⟩
  · have hf : (issued (createEksClusterRole env roleName) s).filter Event.isAttachment =
        [⟨clusterPolicyIntent role.name, .ok a1⟩,
          ⟨servicePolicyIntent role.name, .ok a2⟩] := by rw [h]; rfl
    rw [hf] at hev
    rcases hk with rfl | rfl
    · simp only [Nat.sub_self, List.getElem?_cons_zero, Option.some.injEq] at hev
      subst hev
      cases hfail
    · simp only [Nat.add_one_sub_one, List.getElem?_cons_succ, List.getElem?_cons_zero,
        Option.some.injEq] at hev
      subst hev
      cases hfail

theorem createEksClusterRole_attachment_refused_witness :
    ((createEksClusterRole (refuseAt 1 ⟨"denied"⟩) "eks-cluster-role" []).1 =
        .error ⟨"denied"⟩ ∧
      ((issued (createEksClusterRole (refuseAt 1 ⟨"denied"⟩) "eks-cluster-role") []).filter
        Event.isAttachment).length = 1) ∧
    ((createEksClusterRole (refuseAt 2 ⟨"denied"⟩) "eks-cluster-role" []).1 =
        .error ⟨"denied"⟩ ∧
      ((issued (createEksClusterRole (refuseAt 2 ⟨"denied"⟩) "eks-cluster-role") []).filter
        Event.isAttachment).length = 2) := by
  have h1 := createEksClusterRole_attachment_refused (refuseAt 1 ⟨"denied"⟩)
    "eks-cluster-role" [] 1 (by decide) (by decide)
    ⟨clusterPolicyIntent "name:eks-cluster-role", .error ⟨"denied"⟩⟩ ⟨"denied"⟩ rfl rfl
  have h2 := createEksClusterRole_attachment_refused (refuseAt 2 ⟨"denied"⟩)
    "eks-cluster-role" [] 2 (by decide) (by decide)
    ⟨servicePolicyIntent "name:eks-cluster-role", .error ⟨"denied"⟩⟩ ⟨"denied"⟩ rfl rfl
  exact ⟨⟨h1.1, h1.2.1⟩, ⟨h2.1, h2.2.1⟩⟩

/-- C5: for every role name, when serialisation succeeds and every declaration
made is accepted, `createEksClusterRole` makes exactly one role declaration,
whose logical name and whose `Name` argument are both the role name, and
returns, with no error, exactly the handle that the engine returned for that
declaration. -/
theorem createEksClusterRole_returns_role (env : Env) (roleName : String) (s : Session)
    (p : String) (hm : env.marshal eksTrustPolicy = .ok p)
    (hall : (issued (createEksClusterRole env roleName) s).all Event.succeeded = true) :
    ∃ role,
      (issued (createEksClusterRole env roleName) s).filter Event.isRole =
        [⟨Intent.role roleName { Name := roleName, AssumeRolePolicy := p }, .ok role⟩] ∧
      (createEksClusterRole env roleName s).1 = .ok role := by
  rcases createEksClusterRole_issued env roleName s with
    ⟨e, hm1, _, h⟩ | ⟨q, e, hm1, _, h⟩ | ⟨q, role, e, hm1, _, h⟩ |
    ⟨q, role, a1, e, hm1, _, h⟩ | ⟨q, role, a1, a2, hm1, hres, h⟩
  · rw [hm] at hm1; cases hm1
  · rw [h] at hall; simp [Event.succeeded] at hall
  · rw [h] at hall; simp [Event.succeeded] at hall
  · rw [h] at hall; simp [Event.succeeded] at hall
  · rw [hm] at hm1
    cases hm1
    exact ⟨role, by rw [h]; rfl, hres⟩

theorem createEksClusterRole_returns_role_witness :
    acceptAll.marshal eksTrustPolicy = .ok "policy" ∧
    ∃ role,
      (issued (createEksClusterRole acceptAll "eks-cluster-role") []).filter Event.isRole =
        [⟨Intent.role "eks-cluster-role"
            { Name := "eks-cluster-role", AssumeRolePolicy := "policy" }, .ok role⟩] ∧
      (createEksClusterRole acceptAll "eks-cluster-role" []).1 = .ok role :=
  ⟨rfl, createEksClusterRole_returns_role acceptAll "eks-cluster-role" [] "policy" rfl rfl⟩

/-- C6: for every role name, if serialising the trust policy fails,
`createEksClusterRole` makes no declaration at all (no role declaration, no
attachment), leaves the session as it was, and returns no role, with the
error of the serialiser. -/
theorem createEksClusterRole_marshal_fails (env : Env) (roleName : String) (s : Session)
    (e : GoError) (hm : env.marshal eksTrustPolicy = .error e) :
    issued (createEksClusterRole env roleName) s = [] ∧
    createEksClusterRole env roleName s = (.error e, s) := by
  rcases createEksClusterRole_cases env roleName s with
    ⟨e1, hm1, h⟩ | ⟨q, e1, hm1, _, h⟩ | ⟨q, role, e1, hm1, _, _, h⟩ |
    ⟨q, role, a1, e1, hm1, _, _, _, h⟩ | ⟨q, role, a1, a2, hm1, _, _, _, h⟩
  · rw [hm] at hm1
    cases hm1
    exact ⟨issued_append _ s [] (by rw [h]; simp), h⟩
  all_goals (rw [hm] at hm1; cases hm1)

theorem createEksClusterRole_marshal_fails_witness :
    issued (createEksClusterRole (marshalFails ⟨"unsupported type"⟩) "eks-cluster-role") [] =
      [] ∧
    createEksClusterRole (marshalFails ⟨"unsupported type"⟩) "eks-cluster-role" [] =
      (.error ⟨"unsupported type"⟩, []) :=
  createEksClusterRole_marshal_fails (marshalFails ⟨"unsupported type"⟩)
    "eks-cluster-role" [] ⟨"unsupported type"⟩ rfl

/-- C7, as the code has it: every error returned by `createEksClusterRole` is
the error value of the failing step itself, returned unchanged: the error of
the serialiser, or the error the engine returned for the last declaration
made (the role or an attachment). No tag and no step is added to it. -/
theorem createEksClusterRole_error_unchanged (env : Env) (roleName : String)
    (s : Session) (e : GoError)
    (herr : (createEksClusterRole env roleName s).1 = .error e) :
    (env.marshal eksTrustPolicy = .error e ∧
      issued (createEksClusterRole env roleName) s = []) ∨
    ∃ ev, (issued (createEksClusterRole env roleName) s).getLast? = some ev ∧
      ev.result = .error e ∧
      env.register (s ++ (issued (createEksClusterRole env roleName) s).dropLast)
        ev.intent = .error e := by
  rcases createEksClusterRole_cases env roleName s with
    ⟨e1, hm, h⟩ | ⟨q, e1, hm, hr, h⟩ | ⟨q, role, e1, hm, hr, h1, h⟩ |
    ⟨q, role, a1, e1, hm, hr, h1, h2, h⟩ | ⟨q, role, a1, a2, hm, hr, h1, h2, h⟩
  · have hi := issued_append (createEksClusterRole env roleName) s [] (by rw [h]; simp)
    rw [h] at herr
    cases herr
    exact Or.inl ⟨hm, hi⟩
  · have hi := issued_append (createEksClusterRole env roleName) s _ (by rw [h])
    rw [h] at herr
    cases herr
    refine Or.inr ⟨_, by rw [hi]; rfl, rfl, ?_⟩
    rw [hi]
    simpa using hr
  · have hi := issued_append (createEksClusterRole env roleName) s _ (by rw [h])
    rw [h] at herr
    cases herr
    refine Or.inr ⟨_, by rw [hi]; rfl, rfl, ?_⟩
    rw [hi]
    simpa using h1
  · have hi := issued_append (createEksClusterRole env roleName) s _ (by rw [h])
    rw [h] at herr
    cases herr
    refine Or.inr ⟨_, by rw [hi]; rfl, rfl, ?_⟩
    rw [hi]
    simpa using h2
  · rw [h] at herr
    cases herr

theorem createEksClusterRole_error_unchanged_witness :
    (refuseAt 1 ⟨"denied"⟩).marshal eksTrustPolicy = .error ⟨"denied"⟩ ∧
      issued (createEksClusterRole (refuseAt 1 ⟨"denied"⟩) "eks-cluster-role") [] = [] ∨
    ∃ ev, (issued (createEksClusterRole (refuseAt 1 ⟨"denied"⟩)
        "eks-cluster-role") []).getLast? = some ev ∧
      ev.result = .error ⟨"denied"⟩ ∧
      (refuseAt 1 ⟨"denied"⟩).register ([] ++ (issued (createEksClusterRole
        (refuseAt 1 ⟨"denied"⟩) "eks-cluster-role") []).dropLast) ev.intent =
          .error ⟨"denied"⟩ :=
  createEksClusterRole_error_unchanged (refuseAt 1 ⟨"denied"⟩) "eks-cluster-role" []
    ⟨"denied"⟩ rfl

/-- C7, as stated, fails: a refused role declaration, a refused first
attachment, a refused second attachment and a failed serialisation all make
`createEksClusterRole` return the very same error value, so the returned
error carries neither a kind nor the step that failed: no function of the
returned error gives the failing step. -/
theorem createEksClusterRole_error_untagged :
    (createEksClusterRole (marshalFails ⟨"denied"⟩) "eks-cluster-role" []).1 =
      .error ⟨"denied"⟩ ∧
    failedStep (marshalFails ⟨"denied"⟩) "eks-cluster-role" [] = some .serialisation ∧
    (createEksClusterRole (refuseAt 0 ⟨"denied"⟩) "eks-cluster-role" []).1 =
      .error ⟨"denied"⟩ ∧
    failedStep (refuseAt 0 ⟨"denied"⟩) "eks-cluster-role" [] = some .roleCreation ∧
    (createEksClusterRole (refuseAt 1 ⟨"denied"⟩) "eks-cluster-role" []).1 =
      .error ⟨"denied"⟩ ∧
    failedStep (refuseAt 1 ⟨"denied"⟩) "eks-cluster-role" [] = some (.attachment 1) ∧
    (createEksClusterRole (refuseAt 2 ⟨"denied"⟩) "eks-cluster-role" []).1 =
      .error ⟨"denied"⟩ ∧
    failedStep (refuseAt 2 ⟨"denied"⟩) "eks-cluster-role" [] = some (.attachment 2) ∧
    ¬ ∃ stepOf : GoError → Step, ∀ (env : Env) (roleName : String) (s : Session)
        (e : GoError), (createEksClusterRole env roleName s).1 = .error e →
        failedStep env roleName s = some (stepOf e) := by
  refine ⟨rfl, rfl, rfl, rfl, rfl, rfl, rfl, rfl, ?_⟩
  rintro ⟨stepOf, h⟩
  have h0 := h (refuseAt 0 ⟨"denied"⟩) "eks-cluster-role" [] ⟨"denied"⟩ rfl
  have h1 := h (refuseAt 1 ⟨"denied"⟩) "eks-cluster-role" [] ⟨"denied"⟩ rfl
  have e0 : failedStep (refuseAt 0 ⟨"denied"⟩) "eks-cluster-role" [] =
      some .roleCreation := rfl
  have e1 : failedStep (refuseAt 1 ⟨"denied"⟩) "eks-cluster-role" [] =
      some (.attachment 1) := rfl
  rw [e0] at h0
  rw [e1, ← h0] at h1
  cases h1

/-- C8, as the code has it: `createEksClusterRole` takes the role name only.
For every role name the document it serialises is the trust document for the
fixed principal `eks.amazonaws.com` (one statement, effect `Allow`, action
`sts:AssumeRole`): whenever that document serialises, the first declaration
made is the role, carrying that serialisation, and no role declaration
carries anything else. The managed policies it attaches are always the first
declared of the fixed list cluster policy, service policy, and they are
exactly that list when serialisation succeeds and every declaration made is
accepted, and when the call returns a role. -/
theorem createEksClusterRole_fixed_principal_and_policies (env : Env)
    (roleName : String) (s : Session) :
    (∀ p, env.marshal (trustPolicyDocument "eks.amazonaws.com") = .ok p →
      ((issued (createEksClusterRole env roleName) s).head?).map Event.intent =
        some (Intent.role roleName { Name := roleName, AssumeRolePolicy := p })) ∧
    (∀ ev ∈ issued (createEksClusterRole env roleName) s, ∀ n args,
        ev.intent = Intent.role n args →
        env.marshal (trustPolicyDocument "eks.amazonaws.com") =
          .ok args.AssumeRolePolicy) ∧
    (∃ k, k ≤ 2 ∧
      (issued (createEksClusterRole env roleName) s).filterMap
          (fun ev => ev.intent.policyArn?) =
        ["arn:aws:iam::aws:policy/AmazonEKSClusterPolicy",
         "arn:aws:iam::aws:policy/AmazonEKSServicePolicy"].take k) ∧
    (∀ p, env.marshal (trustPolicyDocument "eks.amazonaws.com") = .ok p →
      (issued (createEksClusterRole env roleName) s).all Event.succeeded = true →
      (issued (createEksClusterRole env roleName) s).filterMap
          (fun ev => ev.intent.policyArn?) =
        ["arn:aws:iam::aws:policy/AmazonEKSClusterPolicy",
         "arn:aws:iam::aws:policy/AmazonEKSServicePolicy"]) ∧
    (∀ role, (createEksClusterRole env roleName s).1 = .ok role →
      (issued (createEksClusterRole env roleName) s).filterMap
          (fun ev => ev.intent.policyArn?) =
        ["arn:aws:iam::aws:policy/AmazonEKSClusterPolicy",
         "arn:aws:iam::aws:policy/AmazonEKSServicePolicy"]) := by
  have hdoc : trustPolicyDocument "eks.amazonaws.com" = eksTrustPolicy := rfl
  rw [hdoc]
  rcases createEksClusterRole_issued env roleName s with
    ⟨e, hm, hres, h⟩ | ⟨p, e, hm, hres, h⟩ | ⟨p, role, e, hm, hres, h⟩ |
    ⟨p, role, a1, e, hm, hres, h⟩ | ⟨p, role, a1, a2, hm, hres, h⟩
  · rw [h, hm, hres]
    exact ⟨by simp, by simp, ⟨0, by omega, rfl⟩, by simp, by simp⟩
  · rw [h, hm, hres]
    exact ⟨by simp [roleIntent], by simp [roleIntent], ⟨0, by omega, rfl⟩,
      by simp [Event.succeeded], by simp⟩
  · rw [h, hm, hres]
    exact ⟨by simp [roleIntent], by simp [roleIntent, clusterPolicyIntent],
      ⟨1, by omega, rfl⟩, by simp [Event.succeeded], by simp⟩
  · rw [h, hm, hres]
    exact ⟨by simp [roleIntent],
      by simp [roleIntent, clusterPolicyIntent, servicePolicyIntent],
      ⟨2, by omega, rfl⟩, by simp [Event.succeeded], by simp⟩
  · rw [h, hm, hres]
    exact ⟨by simp [roleIntent],
      by simp [roleIntent, clusterPolicyIntent, servicePolicyIntent],
      ⟨2, by omega, rfl⟩, fun _ _ _ => rfl, fun _ _ => rfl⟩

theorem createEksClusterRole_fixed_principal_and_policies_witness :
    principalProbe.marshal (trustPolicyDocument "eks.amazonaws.com") =
      .ok "eks.amazonaws.com" ∧
    ((issued (createEksClusterRole principalProbe "worker-role") []).head?).map
        Event.intent =
      some (Intent.role "worker-role"
        { Name := "worker-role", AssumeRolePolicy := "eks.amazonaws.com" }) ∧
    (∀ ev ∈ issued (createEksClusterRole principalProbe "worker-role") [], ∀ n args,
        ev.intent = Intent.role n args →
        principalProbe.marshal (trustPolicyDocument "eks.amazonaws.com") =
          .ok args.AssumeRolePolicy) ∧
    (issued (createEksClusterRole principalProbe "worker-role") []).all
        Event.succeeded = true ∧
    (issued (createEksClusterRole principalProbe "worker-role") []).filterMap
        (fun ev => ev.intent.policyArn?) =
      ["arn:aws:iam::aws:policy/AmazonEKSClusterPolicy",
       "arn:aws:iam::aws:policy/AmazonEKSServicePolicy"] ∧
    (issued (createEksClusterRole acceptAll "eks-cluster-role") []).filterMap
        (fun ev => ev.intent.policyArn?) =
      ["arn:aws:iam::aws:policy/AmazonEKSClusterPolicy",
       "arn:aws:iam::aws:policy/AmazonEKSServicePolicy"] :=
  ⟨rfl,
   (createEksClusterRole_fixed_principal_and_policies principalProbe "worker-role" []).1
      "eks.amazonaws.com" rfl,
   (createEksClusterRole_fixed_principal_and_policies principalProbe "worker-role" []).2.1,
   rfl,
   (createEksClusterRole_fixed_principal_and_policies principalProbe "worker-role"
      []).2.2.2.1 "eks.amazonaws.com" rfl rfl,
   (createEksClusterRole_fixed_principal_and_policies acceptAll "eks-cluster-role"
      []).2.2.2.2 (sampleResource (roleIntent "eks-cluster-role" "policy")) rfl⟩

/-- C8, as stated, fails: the caller cannot supply a service principal or a
policy list. With a serialiser that answers the principal of the document it
is given, the role declared for `eks-cluster-role` carries the principal
`eks.amazonaws.com`, not the serialisation of the trust document for the
principal `ec2.amazonaws.com`, and the two fixed policies are attached, not
the policies of the list holding `AmazonS3ReadOnlyAccess` alone. -/
theorem createEksClusterRole_ignores_principal_and_policy_list :
    (issued (createEksClusterRole principalProbe "eks-cluster-role") []).map Event.intent =
      [Intent.role "eks-cluster-role"
          { Name := "eks-cluster-role", AssumeRolePolicy := "eks.amazonaws.com" },
       Intent.rolePolicyAttachment "eks-cluster-policy"
          { PolicyArn := "arn:aws:iam::aws:policy/AmazonEKSClusterPolicy",
            Role := "name:eks-cluster-role" },
       Intent.rolePolicyAttachment "eks-service-policy"
          { PolicyArn := "arn:aws:iam::aws:policy/AmazonEKSServicePolicy",
            Role := "name:eks-cluster-role" }] ∧
    principalProbe.marshal (trustPolicyDocument "ec2.amazonaws.com") =
      .ok "ec2.amazonaws.com" ∧
    ¬ (∀ (roleName servicePrincipal : String) (managedPolicyRefs : List String)
        (env : Env) (s : Session), roleName ≠ "" →
        (∀ ev ∈ issued (createEksClusterRole env roleName) s, ∀ n args,
          ev.intent = Intent.role n args →
          env.marshal (trustPolicyDocument servicePrincipal) =
            .ok args.AssumeRolePolicy) ∧
        (∀ role, (createEksClusterRole env roleName s).1 = .ok role →
          (issued (createEksClusterRole env roleName) s).filterMap
            (fun ev => ev.intent.policyArn?) = managedPolicyRefs)) := by
  refine ⟨by decide, rfl, ?_⟩
  intro h
  have h1 := (h "eks-cluster-role" "ec2.amazonaws.com"
    ["arn:aws:iam::aws:policy/AmazonS3ReadOnlyAccess"] principalProbe []
    (by decide)).2 (sampleResource (roleIntent "eks-cluster-role" "eks.amazonaws.com")) rfl
  have h2 : (issued (createEksClusterRole principalProbe "eks-cluster-role") []).filterMap
      (fun ev => ev.intent.policyArn?) =
      ["arn:aws:iam::aws:policy/AmazonEKSClusterPolicy",
       "arn:aws:iam::aws:policy/AmazonEKSServicePolicy"] := rfl
  rw [h2] at h1
  simp at h1

/-- The sample engine `dedupEngine` rejects logical names already declared. -/
theorem dedupEngine_rejectsDuplicates : RejectsDuplicates dedupEngine := by
  intro s i hdup
  obtain ⟨ev, hmem, hok, hkey⟩ := hdup
  refine ⟨⟨"duplicate resource"⟩, ?_⟩
  have hany : s.any (fun ev => ev.succeeded && decide (ev.key = (i.kind, i.logicalName))) =
      true := by
    rw [List.any_eq_true]
    exact ⟨ev, hmem, by simp [hok, hkey]⟩
  simp only [dedupEngine, hany, if_true]

/-- C10, as the code has it: for every role name the logical names of the
attachment declarations are the constants `eks-cluster-policy` and
`eks-service-policy`, in that order. So, under an engine that rejects a
logical name already declared in the session, when a first call for `r1`
returned a role and the role declaration of a second call for `r2` is
accepted, the second call declares the role `r2` and then its first
attachment, which is refused, declares nothing else, and returns no role,
with the error of that attachment; and `r2` is then not `r1`. -/
theorem createEksClusterRole_second_call_fails (env : Env) (r1 r2 : String)
    (s : Session) (hdup : RejectsDuplicates env) (role1 : Resource)
    (h1 : (createEksClusterRole env r1 s).1 = .ok role1)
    (ev2 : Event)
    (hev2 : ev2 ∈ issued (createEksClusterRole env r2) (createEksClusterRole env r1 s).2)
    (hrole2 : ev2.isRole = true) (hok2 : ev2.succeeded = true) :
    (∀ (r : String) (t : Session), ∃ k, k ≤ 2 ∧
      ((issued (createEksClusterRole env r) t).filter Event.isAttachment).map
          (fun ev => ev.intent.logicalName) =
        ["eks-cluster-policy", "eks-service-policy"].take k) ∧
    (∃ p role2 e,
      issued (createEksClusterRole env r2) (createEksClusterRole env r1 s).2 =
        [⟨Intent.role r2 { Name := r2, AssumeRolePolicy := p }, .ok role2⟩,
         ⟨Intent.rolePolicyAttachment "eks-cluster-policy"
            { PolicyArn := "arn:aws:iam::aws:policy/AmazonEKSClusterPolicy",
              Role := role2.name }, .error e⟩] ∧
      (createEksClusterRole env r2 (createEksClusterRole env r1 s).2).1 = .error e) ∧
    r1 ≠ r2 := by
  refine ⟨?_, ?_⟩
  · intro r t
    rcases createEksClusterRole_issued env r t with
      ⟨e, _, _, h⟩ | ⟨p, e, _, _, h⟩ | ⟨p, role, e, _, _, h⟩ |
      ⟨p, role, a1, e, _, _, h⟩ | ⟨p, role, a1, a2, _, _, h⟩
    · exact ⟨0, by omega, by rw [h]; rfl⟩
    · exact ⟨0, by omega, by rw [h]; rfl⟩
    · exact ⟨1, by omega, by rw [h]; rfl⟩
    · exact ⟨2, by omega, by rw [h]; rfl⟩
    · exact ⟨2, by omega, by rw [h]; rfl⟩
  · -- the session after the first call
    obtain ⟨q1, a1, a2, hs1⟩ : ∃ q1 a1 a2, (createEksClusterRole env r1 s).2 =
        s ++ [⟨roleIntent r1 q1, .ok role1⟩,
          ⟨clusterPolicyIntent role1.name, .ok a1⟩,
          ⟨servicePolicyIntent role1.name, .ok a2⟩] := by
      rcases createEksClusterRole_cases env r1 s with
        ⟨e, _, h⟩ | ⟨p, e, _, _, h⟩ | ⟨p, role, e, _, _, _, h⟩ |
        ⟨p, role, b1, e, _, _, _, _, h⟩ | ⟨p, role, b1, b2, _, _, _, _, h⟩
      · rw [h] at h1; cases h1
      · rw [h] at h1; cases h1
      · rw [h] at h1; cases h1
      · rw [h] at h1; cases h1
      · rw [h] at h1
        cases h1
        exact ⟨p, b1, b2, by rw [h]⟩
    rw [hs1] at hev2 ⊢
    rcases createEksClusterRole_cases env r2
        (s ++ [⟨roleIntent r1 q1, .ok role1⟩,
          ⟨clusterPolicyIntent role1.name, .ok a1⟩,
          ⟨servicePolicyIntent role1.name, .ok a2⟩]) with
      ⟨e, _, h⟩ | ⟨p, e, _, _, h⟩ | ⟨p, role, e, _, hr, _, h⟩ |
      ⟨p, role, b1, e, _, _, hb1, _, h⟩ | ⟨p, role, b1, b2, _, _, hb1, _, h⟩
    · have hi := issued_append (createEksClusterRole env r2) _ [] (by rw [h]; simp)
      rw [hi] at hev2
      simp at hev2
    · have hi := issued_append (createEksClusterRole env r2) _ _ (by rw [h])
      rw [hi] at hev2
      simp only [List.mem_singleton] at hev2
      subst hev2
      cases hok2
    · have hi := issued_append (createEksClusterRole env r2) _ _ (by rw [h])
      refine ⟨⟨p, role, e, by rw [hi]; rfl, by rw [h]⟩, ?_⟩
      intro h12
      subst h12
      obtain ⟨e3, he3⟩ := hdup
        (s ++ [⟨roleIntent r1 q1, .ok role1⟩,
          ⟨clusterPolicyIntent role1.name, .ok a1⟩,
          ⟨servicePolicyIntent role1.name, .ok a2⟩]) (roleIntent r1 p)
        ⟨⟨roleIntent r1 q1, .ok role1⟩, by simp, rfl, rfl⟩
      rw [hr] at he3
      cases he3
    · exfalso
      obtain ⟨e3, he3⟩ := hdup
        (s ++ [⟨roleIntent r1 q1, .ok role1⟩,
          ⟨clusterPolicyIntent role1.name, .ok a1⟩,
          ⟨servicePolicyIntent role1.name, .ok a2⟩] ++ [⟨roleIntent r2 p, .ok role⟩])
        (clusterPolicyIntent role.name)
        ⟨⟨clusterPolicyIntent role1.name, .ok a1⟩, by simp, rfl, rfl⟩
      rw [hb1] at he3
      cases he3
    · exfalso
      obtain ⟨e3, he3⟩ := hdup
        (s ++ [⟨roleIntent r1 q1, .ok role1⟩,
          ⟨clusterPolicyIntent role1.name, .ok a1⟩,
          ⟨servicePolicyIntent role1.name, .ok a2⟩] ++ [⟨roleIntent r2 p, .ok role⟩])
        (clusterPolicyIntent role.name)
        ⟨⟨clusterPolicyIntent role1.name, .ok a1⟩, by simp, rfl, rfl⟩
      rw [hb1] at he3
      cases he3

theorem createEksClusterRole_second_call_fails_witness :
    (∃ p role2 e,
      issued (createEksClusterRole dedupEngine "worker-role")
          (createEksClusterRole dedupEngine "eks-cluster-role" []).2 =
        [⟨Intent.role "worker-role" { Name := "worker-role", AssumeRolePolicy := p },
            .ok role2⟩,
         ⟨Intent.rolePolicyAttachment "eks-cluster-policy"
            { PolicyArn := "arn:aws:iam::aws:policy/AmazonEKSClusterPolicy",
              Role := role2.name }, .error e⟩] ∧
      (createEksClusterRole dedupEngine "worker-role"
        (createEksClusterRole dedupEngine "eks-cluster-role" []).2).1 = .error e) ∧
    "eks-cluster-role" ≠ "worker-role" :=
  (createEksClusterRole_second_call_fails dedupEngine "eks-cluster-role" "worker-role" []
    dedupEngine_rejectsDuplicates
    (sampleResource (roleIntent "eks-cluster-role" "policy")) rfl
    ⟨roleIntent "worker-role" "policy",
      .ok (sampleResource (roleIntent "worker-role" "policy"))⟩
    (List.mem_cons_self _ _) rfl rfl).2

/-- C10, as stated, fails for equal role names: under the engine `dedupEngine`,
which rejects logical names already declared, a first call for
`eks-cluster-role` in a fresh session returns a role, and a second call for
the same name fails at its role declaration: it makes that one declaration,
which is refused, and no attachment declaration at all. -/
theorem createEksClusterRole_same_name_fails_at_role :
    RejectsDuplicates dedupEngine ∧
    (createEksClusterRole dedupEngine "eks-cluster-role" []).1 =
      .ok (sampleResource (roleIntent "eks-cluster-role" "policy")) ∧
    issued (createEksClusterRole dedupEngine "eks-cluster-role")
        (createEksClusterRole dedupEngine "eks-cluster-role" []).2 =
      [⟨Intent.role "eks-cluster-role"
          { Name := "eks-cluster-role", AssumeRolePolicy := "policy" },
        .error ⟨"duplicate resource"⟩⟩] ∧
    (issued (createEksClusterRole dedupEngine "eks-cluster-role")
        (createEksClusterRole dedupEngine "eks-cluster-role" []).2).filter
      Event.isAttachment = [] :=
  ⟨dedupEngine_rejectsDuplicates, rfl, rfl, rfl⟩

theorem bind_ok {α β : Type} (m : Prog α) (f : α → Prog β) (s s1 : Session) (a : α)
    (h : m s = (.ok a, s1)) : Prog.bind m f s = f a s1 := by
  simp only [Prog.bind, h]

theorem bind_error {α β : Type} (m : Prog α) (f : α → Prog β) (s s1 : Session)
    (e : GoError) (h : m s = (.error e, s1)) : Prog.bind m f s = (.error e, s1) := by
  simp only [Prog.bind, h]

theorem registerResource_bind {β : Type} (env : Env) (i : Intent) (f : Resource → Prog β)
    (s : Session) :
    Prog.bind (registerResource env i) f s =
      match env.register s i with
      | .error e => (.error e, s ++ [⟨i, .error e⟩])
      | .ok r => f r (s ++ [⟨i, .ok r⟩]) := by
  unfold Prog.bind registerResource
  cases env.register s i <;> rfl

theorem main_shape (env : Env) (s : Session) :
    (∃ e, env.marshal eksTrustPolicy = .error e ∧ main env s = (.error e, s)) ∨
    (∃ p res evs, env.marshal eksTrustPolicy = .ok p ∧ main env s = (res, s ++ evs) ∧
      evs.map Event.key = mainOrder.take evs.length ∧
      evs.dropLast.all Event.succeeded = true ∧
      ((res = .ok () ∧ evs.length = 14 ∧ evs.all Event.succeeded = true) ∨
        ∃ e ev, res = .error e ∧ evs.getLast? = some ev ∧ ev.result = .error e)) := by
  rcases createEksClusterRole_cases env "eks-cluster-role" s with
    ⟨e, hm, h⟩ | ⟨p, e, hm, _, h⟩ | ⟨p, role, e, hm, _, _, h⟩ |
    ⟨p, role, a1, e, hm, _, _, _, h⟩ | ⟨p, role, a1, a2, hm, _, _, _, h⟩
  · left
    refine ⟨e, hm, ?_⟩
    simp only [main, bind]
    rw [bind_error _ _ _ _ _ h]
  · right
    refine ⟨p, ?_⟩
    simp only [main, bind]
    rw [bind_error _ _ _ _ _ h]
    exact ⟨_, _, hm, rfl, rfl, rfl, Or.inr ⟨_, _, rfl, rfl, rfl⟩⟩
  · right
    refine ⟨p, ?_⟩
    simp only [main, bind]
    rw [bind_error _ _ _ _ _ h]
    exact ⟨_, _, hm, rfl, rfl, rfl, Or.inr ⟨_, _, rfl, rfl, rfl⟩⟩
  · right
    refine ⟨p, ?_⟩
    simp only [main, bind]
    rw [bind_error _ _ _ _ _ h]
    exact ⟨_, _, hm, rfl, rfl, rfl, Or.inr ⟨_, _, rfl, rfl, rfl⟩⟩
  · right
    refine ⟨p, ?_⟩
    simp only [main, bind, pure]
    rw [bind_ok _ _ _ _ _ h]
    simp only [ec2.NewVpc, ec2.NewInternetGateway, ec2.NewRouteTable, ec2.NewSubnet,
      ec2.NewRouteTableAssociation, eks.NewCluster, s3.NewBucket]
    iterate 11 (rw [registerResource_bind]; split; rotate_left)
    · simp only [Prog.pure, List.append_assoc, List.cons_append, List.nil_append]
      exact ⟨_, _, hm, rfl, rfl, rfl, Or.inl ⟨rfl, rfl, rfl⟩⟩
    all_goals
      simp only [List.append_assoc, List.cons_append, List.nil_append]
      exact ⟨_, _, hm, rfl, rfl, rfl, Or.inr ⟨_, _, rfl, rfl, rfl⟩⟩

/-- In a run where every declaration but the last was accepted, a refused
declaration is the last one. -/
theorem refused_is_last (evs : List Event)
    (h : evs.dropLast.all Event.succeeded = true) (k : Nat) (ev : Event) (e : GoError)
    (hk : evs[k]? = some ev) (hf : ev.result = .error e) :
    evs.length = k + 1 ∧ evs.getLast? = some ev := by
  have hlt : k < evs.length := by
    by_contra hge
    rw [List.getElem?_eq_none (by omega)] at hk
    cases hk
  have hlast : ¬ k < evs.length - 1 := by
    intro hlt1
    have hd : evs.dropLast[k]? = some ev := by
      rw [List.getElem?_dropLast, if_pos hlt1, hk]
    have hmem : ev ∈ evs.dropLast := List.getElem?_mem hd
    have hs := (List.all_eq_true.mp h) ev hmem
    simp [Event.succeeded, hf] at hs
  have hlen : evs.length = k + 1 := by omega
  refine ⟨hlen, ?_⟩
  rw [List.getLast?_eq_getElem?, hlen]
  simpa using hk

/-- C9: `main` declares in the order of the source: the role provisioning for
`eks-cluster-role` (the role, then its two attachments), VPC, internet
gateway, route table, subnet `main-public-a`, association `eks-rta-1`, subnet
`main-public-d`, association `eks-rta-2`, subnet `main-private-A`, association
`eks-rta-3`, EKS cluster, S3 bucket. At every position, a refused declaration
is the last one made and the run returns exactly its error; a failed
serialisation of the trust policy makes the run return its error with nothing
declared; every error returned is that of the serialiser or of the last
declaration made; and the run returns success exactly when serialisation
succeeded and all declarations were made and accepted. -/
theorem main_declares_in_order_and_fails_fast (env : Env) (s : Session) :
    (issued (main env) s).map Event.key =
      mainOrder.take (issued (main env) s).length ∧
    (∀ k ev e, (issued (main env) s)[k]? = some ev → ev.result = .error e →
      (main env s).1 = .error e ∧ (issued (main env) s).length = k + 1) ∧
    (∀ e, env.marshal eksTrustPolicy = .error e →
      (main env s).1 = .error e ∧ issued (main env) s = []) ∧
    (∀ e, (main env s).1 = .error e →
      env.marshal eksTrustPolicy = .error e ∨
      ∃ ev, (issued (main env) s).getLast? = some ev ∧ ev.result = .error e) ∧
    ((main env s).1 = .ok () ↔
      (∃ p, env.marshal eksTrustPolicy = .ok p) ∧
      (issued (main env) s).map Event.key = mainOrder ∧
      (issued (main env) s).all Event.succeeded = true) := by
  rcases main_shape env s with ⟨e, hm, h⟩ | ⟨p, res, evs, hm, h, hkeys, hpre, hres⟩
  · have hi : issued (main env) s = [] := issued_append _ s [] (by rw [h]; simp)
    rw [hi, h]
    refine ⟨rfl, ?_, ?_, ?_, ?_⟩
    · intro k ev e1 hk
      simp at hk
    · intro e1 he1
      rw [hm] at he1
      cases he1
      exact ⟨rfl, rfl⟩
    · intro e1 he1
      cases he1
      exact Or.inl hm
    · constructor
      · intro h0
        cases h0
      · rintro ⟨⟨p, hp⟩, _, _⟩
        rw [hm] at hp
        cases hp
  · have hi : issued (main env) s = evs := issued_append _ s evs (by rw [h])
    rw [hi, h]
    refine ⟨hkeys, ?_, ?_, ?_, ?_⟩
    · intro k ev e1 hk hf
      obtain ⟨hlen, hlast⟩ := refused_is_last evs hpre k ev e1 hk hf
      refine ⟨?_, hlen⟩
      rcases hres with ⟨_, _, hall⟩ | ⟨e2, ev2, hr, hl2, hf2⟩
      · have hs := (List.all_eq_true.mp hall) ev (List.getElem?_mem hk)
        simp [Event.succeeded, hf] at hs
      · rw [hlast] at hl2
        cases hl2
        rw [hf] at hf2
        cases hf2
        exact hr
    · intro e1 he1
      rw [hm] at he1
      cases he1
    · intro e1 he1
      rcases hres with ⟨hr, _, _⟩ | ⟨e2, ev2, hr, hl2, hf2⟩
      · simp only at he1
        rw [hr] at he1
        cases he1
      · simp only at he1
        rw [hr] at he1
        cases he1
        exact Or.inr ⟨ev2, hl2, hf2⟩
    · constructor
      · intro h0
        rcases hres with ⟨hr, hlen, hall⟩ | ⟨e2, ev2, hr, hl2, hf2⟩
        · refine ⟨⟨p, hm⟩, ?_, hall⟩
          rw [hkeys, hlen]
          rfl
        · simp only at h0
          rw [hr] at h0
          cases h0
      · rintro ⟨_, hk14, hall⟩
        rcases hres with ⟨hr, hlen, _⟩ | ⟨e2, ev2, hr, hl2, hf2⟩
        · exact hr
        · exfalso
          have hmem : ev2 ∈ evs := List.mem_of_getLast?_eq_some hl2
          have hs := (List.all_eq_true.mp hall) ev2 hmem
          simp [Event.succeeded, hf2] at hs

theorem main_declares_in_order_and_fails_fast_witness :
    ((main (refuseAt 5 ⟨"denied"⟩) []).1 = .error ⟨"denied"⟩ ∧
      (issued (main (refuseAt 5 ⟨"denied"⟩)) []).length = 5 + 1) ∧
    (issued (main (refuseAt 5 ⟨"denied"⟩)) []).map Event.key =
      [(.role, "eks-cluster-role"),
       (.rolePolicyAttachment, "eks-cluster-policy"),
       (.rolePolicyAttachment, "eks-service-policy"),
       (.vpc, "main"),
       (.internetGateway, "main-ig"),
       (.routeTable, "main-rt")] ∧
    (main acceptAll []).1 = .ok () ∧
    (issued (main acceptAll) []).map Event.key = mainOrder :=
  ⟨(main_declares_in_order_and_fails_fast (refuseAt 5 ⟨"denied"⟩) []).2.1 5
      ⟨Intent.routeTable "main-rt"
        { VpcId := "id:main",
          Routes := [{ CidrBlock := "0.0.0.0/0", GatewayId := "id:main-ig" }],
          Tags := [("Name", "main-rt")] },
        .error ⟨"denied"⟩⟩
      ⟨"denied"⟩ rfl rfl,
    (main_declares_in_order_and_fails_fast (refuseAt 5 ⟨"denied"⟩) []).1,
    rfl,
    ((main_declares_in_order_and_fails_fast acceptAll []).2.2.2.2.mp rfl).2.1⟩

end KubetsDriver
